import Mathlib

/-!
Verification development for the ZMAIL-BOT WhatsApp email assistant.

The Python sources (Main.py, Agentic_System.py, db.py, email_agent.py) are
shallowly embedded below.  External collaborators (the language-model calls,
the HTTP download, the SMTP send, the vector store) are modelled as oracle
parameters or explicit outcome flags; the control flow of the program itself
is translated faithfully.  Python string operations used by the code are
re-implemented over character lists so that every definition evaluates inside
the kernel.
-/

/-! ## Python-style string helpers -/

/-- Bool test that the first character list begins with the second
(models Python str.startswith on the underlying characters). -/
def listStartsWith : List Char → List Char → Bool
  | _, [] => true
  | [], _ :: _ => false
  | x :: xs, y :: ys => x == y && listStartsWith xs ys

/-- Models Python str.startswith. -/
def pyStartswith (s p : String) : Bool := listStartsWith s.toList p.toList

/-- Splits a character list at every occurrence of the given character,
keeping empty fields, exactly like Python str.split(c). -/
def splitOnChar (c : Char) : List Char → List (List Char)
  | [] => [[]]
  | x :: xs =>
    let r := splitOnChar c xs
    if x == c then [] :: r
    else
      match r with
      | [] => [[x]]
      | y :: ys => (x :: y) :: ys

/-- Models Python str.split(",") as used on the mediator response. -/
def pySplitComma (s : String) : List String := (splitOnChar ',' s.toList).map String.mk

/-- Models Python str.strip(): removes whitespace from both ends. -/
def pyStrip (s : String) : String :=
  String.mk (((s.toList.dropWhile (fun c => c.isWhitespace)).reverse.dropWhile
    (fun c => c.isWhitespace)).reverse)

/-- Models Python str.lower(). -/
def pyLower (s : String) : String := String.mk (s.toList.map Char.toLower)

/-- Fuel-indexed replacement of every occurrence of a pattern,
structurally recursive so that the kernel can evaluate it. -/
def replaceAllFuel (pat rep : List Char) : Nat → List Char → List Char
  | 0, l => l
  | _ + 1, [] => []
  | n + 1, x :: xs =>
    if !pat.isEmpty && listStartsWith (x :: xs) pat then
      rep ++ replaceAllFuel pat rep n (List.drop (pat.length - 1) xs)
    else
      x :: replaceAllFuel pat rep n xs

/-- Models Python str.replace(pat, rep). -/
def pyReplace (s pat rep : String) : String :=
  String.mk (replaceAllFuel pat.toList rep.toList s.toList.length s.toList)

/-! ## Data model (db.py: tables users, chats, messages) -/

/-- Row of the users table (db.py init_db). -/
structure UserRow where
  id : Nat
  name : String
  phone : String
  email : String
  is_member : Bool
  is_deleted : Bool
deriving DecidableEq

/-- Row of the chats table. -/
structure ChatRow where
  id : Nat
  user_id : Nat
  status : String
deriving DecidableEq

/-- Row of the messages table. -/
structure MessageRow where
  chat_id : Nat
  user_id : Nat
  user_message : String
  bot_reply : String
deriving DecidableEq

/-- The persisted SQLite state: the three tables plus the next chat rowid. -/
structure DB where
  users : List UserRow
  chats : List ChatRow
  messages : List MessageRow
  nextChatId : Nat
deriving DecidableEq

/-- Seed state created by db.py init_db on a fresh database file. -/
def init_db : DB :=
  { users :=
      [ ⟨1, "Zain Raza", "+923065187343", "zainxaidi2003@gmail.com", true, false⟩
      , ⟨2, "John Doe", "+12345678901", "john@example.com", true, false⟩
      , ⟨3, "Jane Smith", "+12345678902", "jane@example.com", false, false⟩ ]
  , chats := []
  , messages := []
  , nextChatId := 1 }

/-! ## Store operations

The SQL text for the lookup / insert / update operations is produced at run
time by a language model from the fixed prompts in Agentic_System.py
(SQLAgent.generate_query, ChatAgent.check_active_chat, ChatAgent.create_new_chat,
ChatAgent.end_chat, ChatAgent.get_chat_messages); only save_message is literal
SQL in the source.  The semantics below follow the queries those prompts
describe, which is also the contract in spec section 4.3. -/

/-- Modelled from the spec: the user-lookup SQL is generated by the language
model from the SQLAgent.generate_query prompt, which requests the rows of
users with the given phone and is_deleted = 0. -/
def findUserByPhone (db : DB) (phone : String) : List UserRow :=
  db.users.filter (fun u => u.phone == phone && !u.is_deleted)

/-- Predicate for a chat row being the active chat of the given user. -/
def isActiveFor (uid : Nat) (c : ChatRow) : Bool :=
  c.user_id == uid && c.status == "active"

/-- Modelled from the spec: the active-chat lookup SQL is generated by the
language model from the ChatAgent.check_active_chat prompt, which requests
the chats rows with the given user_id and status 'active', newest first,
limit 1. -/
def findActiveChat (db : DB) (uid : Nat) : Option ChatRow :=
  (db.chats.filter (isActiveFor uid)).getLast?

/-- Modelled from the spec: the chat-creation SQL is generated by the
language model from the ChatAgent.create_new_chat prompt, which requests an
insert into chats with the given user_id and status 'active'; execute_query
returns the new rowid. -/
def createChat (db : DB) (uid : Nat) : DB × Nat :=
  ( { db with
        chats := db.chats ++ [⟨db.nextChatId, uid, "active"⟩]
      , nextChatId := db.nextChatId + 1 }
  , db.nextChatId )

/-- Embeds ChatAgent.save_message: a literal parameterized insert into the
messages table of one user turn plus its bot reply. -/
def save_message (db : DB) (chat_id user_id : Nat) (user_message bot_reply : String) : DB :=
  { db with messages := db.messages ++ [⟨chat_id, user_id, user_message, bot_reply⟩] }

/-- Modelled from the spec: the end-chat SQL is generated by the language
model from the ChatAgent.end_chat prompt, which requests an update of the
chats row with the given id to status 'ended'. -/
def endChat (db : DB) (cid : Nat) : DB :=
  { db with
      chats := db.chats.map (fun c => if c.id == cid then { c with status := "ended" } else c) }

/-- One (user_message, bot_reply) turn as retrieved for the mediator. -/
structure MessageTurn where
  user_message : String
  bot_reply : String
deriving DecidableEq

/-- Modelled from the spec: the history SQL is generated by the language
model from the ChatAgent.get_chat_messages prompt, which requests
user_message and bot_reply of the messages rows of the chat, oldest first. -/
def get_chat_messages (db : DB) (cid : Nat) : List MessageTurn :=
  (db.messages.filter (fun m => m.chat_id == cid)).map
    (fun m => ⟨m.user_message, m.bot_reply⟩)

/-! ## Conversation mediator (Agentic_System.py MediatorAgent) -/

/-- Python repr of the media_urls list as interpolated into the prompt. -/
def reprUrls (urls : List String) : String :=
  "[" ++ String.intercalate ", " (urls.map (fun u => "\x27" ++ u ++ "\x27")) ++ "]"

/-- Python repr of the user row as interpolated into the prompt. -/
def reprUser (u : UserRow) : String :=
  "\x7bid: " ++ toString u.id ++ ", name: " ++ u.name ++ ", phone: " ++ u.phone ++
    ", is_member: " ++ toString u.is_member ++ "\x7d"

/-- Conversation history formatting of MediatorAgent.analyze_conversation:
alternating User / Bot lines joined by newlines. -/
def formatHistory (h : List MessageTurn) : String :=
  String.intercalate "\n"
    (h.map (fun m => "User: " ++ m.user_message ++ "\nBot: " ++ m.bot_reply))

/-- The prompt string built by MediatorAgent.analyze_conversation. -/
def mediatorPrompt (user_data : String) (chat_history : List MessageTurn)
    (user_message : String) (media_urls : List String) : String :=
  "Analyze this conversation carefully:\n\n" ++
  "User Data: " ++ user_data ++ "\n\n" ++
  "Previous Messages:\n" ++ formatHistory chat_history ++ "\n\n" ++
  "Current Message: " ++ user_message ++ "\n\n" ++
  "Attachments: " ++ reprUrls media_urls ++ "\n\n" ++
  "Task:\n" ++
  "1. FIRST check if media_urls list has any items\n" ++
  "2. Find recipient email address in any message (pattern: xxx@xxx.xxx)\n" ++
  "3. Find email subject in any message\n\n" ++
  "Rules:\n" ++
  "- If media_urls is empty or None: Return \x27FALSE_1\x27 if email and subject are found\n" ++
  "- If media_urls has items AND email+subject found: Return \x27TRUE, [email], [subject], [first_url]\x27\n" ++
  "- If email or subject missing: Return \x27FALSE_2\x27\n\n" ++
  "IMPORTANT: Never return TRUE if media_urls is empty or None.\n" ++
  "Format responses EXACTLY as specified. Do not add extra text."

/-- Embeds MediatorAgent.analyze_conversation.  The external language-model
call self.agent.run(prompt) is modelled by the oracle llm applied to the
prompt; the source then strips the reply and forces FALSE_1 whenever the
reply starts with TRUE but media_urls is empty. -/
def analyze_conversation (llm : String → String) (user_data : String)
    (chat_history : List MessageTurn) (user_message : String)
    (media_urls : List String) : String :=
  let result := pyStrip (llm (mediatorPrompt user_data chat_history user_message media_urls))
  if pyStartswith result "TRUE" && media_urls.isEmpty then "FALSE_1"
  else result

/-! ## generate_email_body (Main.py) -/

/-- Outcome of pdf_agent.process_pdf as consumed by generate_email_body:
the status field and, for partial success, the extracted text. -/
structure ProcessResult where
  status : String
  text : Option String
deriving DecidableEq

/-- Oracle outcomes of the collaborators consulted by generate_email_body:
the PDF processing result, the vector-store query result
(none models a falsy result or missing documents key) and the summary
agent reply text. -/
structure GenEnv where
  processResult : ProcessResult
  queryDocs : Option (List (List String))
  summaryContent : String
deriving DecidableEq

/-- Embeds get_default_email_template: a fixed string, the subject argument
is ignored by the source. -/
def get_default_email_template (_subject : String) : String :=
  "Dear Hiring Manager,\n\nI am excited to apply for the position mentioned in the subject line. Please find my resume attached for your consideration.\n\nBest regards,\nZain Raza\nLahore, Pakistan\nüìß zainxaidi2003@gmail.com | üìû 0306-5187343"

/-- Embeds generate_email_body: default template when no attachment path is
given; on successful PDF processing with a non-empty first document list the
summary agent reply; on partial success with non-empty extracted text the
summary agent reply; the default template in every other case, the
exception handler included. -/
def generate_email_body (genv : GenEnv) (subject : String)
    (attachment_path : Option String) (recipient_email : Option String) : String :=
  match attachment_path with
  | none => get_default_email_template subject
  | some p =>
    if p = "" then get_default_email_template subject
    else if genv.processResult.status = "success" then
      match genv.queryDocs with
      | some (d0 :: _) =>
        if d0.isEmpty then get_default_email_template subject else genv.summaryContent
      | _ => get_default_email_template subject
    else
      match genv.processResult.status == "partial_success", genv.processResult.text with
      | true, some t => if t = "" then get_default_email_template subject else genv.summaryContent
      | _, _ => get_default_email_template subject

/-! ## download_file (Main.py) -/

/-- Embeds download_file as a function of the two underlying effect
outcomes: whether the authenticated GET (and raise_for_status) succeeds and
whether the local write completes.  The value is (returned success flag,
whether a local file now exists): a failed GET writes nothing, a failed
write leaves a partially written file, both are caught and reported as
False. -/
def download_file (fetchOk writeOk : Bool) : Bool × Bool :=
  if !fetchOk then (false, false)
  else if writeOk then (true, true)
  else (false, true)

/-! ## Webhook reply texts (Main.py whatsapp_webhook) -/

/-- Acknowledgment body returned to the transport on every path. -/
def XML_ACK : String :=
  "<?xml version=\x271.0\x27 encoding=\x27UTF-8\x27?><Response></Response>"

/-- Reply of the non-member / unknown-phone path. -/
def nonMemberReply : String :=
  "You are not subscribed to our membership. Please contact zainxaidi2003@gmail.com for membership details."

/-- Reply when chat creation returns no row id. -/
def setupErrorReply : String :=
  "Sorry, I encountered an error setting up your chat session. Please try again later."

/-- Confirmation reply of the Ready pipeline, built from the recipient. -/
def confirmationMessage (recipient_email : String) : String :=
  "‚úÖ Email sent successfully to " ++ recipient_email ++ "!"

/-- Error reply naming the email send stage. -/
def sendErrorReply : String :=
  "‚ùå Sorry, I encountered an error sending the email. Please try again later."

/-- Error reply naming the attachment download stage. -/
def downloadErrorReply : String :=
  "‚ùå Sorry, I encountered an error downloading your attachment. Please try again."

/-- Reminder reply of the FALSE_1 branch. -/
def missingAttachmentReply : String :=
  "üìé Please attach your resume/CV/transcript/experience letter to continue. I need this to send your job application."

/-- Request-for-info reply of the FALSE_2 branch. -/
def missingInfoReply : String :=
  "üìù I need a bit more information to send your email:\n\n1Ô∏è‚É£ The recipient\x27s email address (e.g., recruiter@company.com)\n2Ô∏è‚É£ The email subject (e.g., \x27Application for Python Developer Position\x27)\n3Ô∏è‚É£ Your resume/CV/transcript/experience letter as an attachment\n\nPlease provide any missing information."

/-- Clarification reply of the fallback branch. -/
def unknownReply : String :=
  "I\x27m having trouble understanding your request. Please provide:\n\n1. The recipient\x27s email address\n2. The email subject\n3. Your resume/CV/transcript/experience letter as an attachment"

/-- Reply sent by the inner exception handler. -/
def processingErrorReply : String :=
  "Sorry, I encountered an error processing your request. Please try again later."

/-- Reply of the missing-WaId path. -/
def noWaIdReply : String :=
  "Sorry, I couldn\x27t identify your phone number."

/-! ## Webhook step machine (Main.py whatsapp_webhook) -/

/-- Outcome of the chat-creation execute_query call: it can raise, return a
result without a row id (the source checks for both falsy results and a
missing id key), or return the new id. -/
inductive ExecOutcome
  | raises
  | noId
  | ok
deriving DecidableEq

/-- Outcomes of the external collaborators consulted during one webhook
call.  The language model is the oracle llm; introMsg is the intro agent
reply; each store call has a flag telling whether execute_query raises;
fetchOk / writeOk drive download_file; unlinkOk tells whether os.unlink of
the temp file succeeds; sendEmailOk is the boolean result of send_email
(which catches its own exceptions); gen drives generate_email_body. -/
structure Env where
  llm : String → String
  introMsg : String
  userLookupOk : Bool
  activeLookupOk : Bool
  createRes : ExecOutcome
  historyOk : Bool
  saveOk : Bool
  endOk : Bool
  fetchOk : Bool
  writeOk : Bool
  unlinkOk : Bool
  sendEmailOk : Bool
  gen : GenEnv

/-- Inbound webhook form data: sender, body text, WaId, and the media
entries as (content type, url) pairs. -/
structure WebhookInput where
  from_number : String
  body : String
  wa_id : String
  media : List (String × String)
deriving DecidableEq

/-- Observable outcome of one webhook call: the persisted state, the bodies
of the WhatsApp messages sent, the HTTP response body, whether a temp file
remains on disk, which URL download_file was called with, and the
(recipient, subject, body) of the send_email attempt when one was made. -/
structure StepResult where
  db : DB
  sent : List String
  response : String
  tempFileLeft : Bool
  downloadedUrl : Option String
  emailAttempt : Option (String × String × String)
deriving DecidableEq

/-- Media filtering of the webhook: keep only entries whose content type
lowers to application/pdf, in order, as URLs. -/
def pdfUrls (media : List (String × String)) : List String :=
  (media.filter (fun m => pyLower m.1 == "application/pdf")).map (fun m => m.2)

/-- Models Python from_number.replace applied to the whatsapp prefix. -/
def cleanNumber (from_number : String) : String :=
  pyReplace from_number "whatsapp:" ""

/-- Result built by the inner exception handler at the moment an
execute_query call raises: the state committed so far persists, the handler
sends the generic processing-error reply, and the fixed acknowledgment is
returned. -/
def raiseResult (db : DB) (tempFileLeft : Bool) (downloadedUrl : Option String)
    (emailAttempt : Option (String × String × String)) : StepResult :=
  { db := db, sent := [processingErrorReply], response := XML_ACK
  , tempFileLeft := tempFileLeft, downloadedUrl := downloadedUrl
  , emailAttempt := emailAttempt }

/-- Result of the non-member / unknown-user early return. -/
def nonMemberResult (db : DB) : StepResult :=
  { db := db, sent := [nonMemberReply], response := XML_ACK
  , tempFileLeft := false, downloadedUrl := none, emailAttempt := none }

/-- Result of a branch that persists one turn and sends one reply. -/
def simpleReplyPath (env : Env) (db : DB) (cid uid : Nat) (body reply : String) : StepResult :=
  if env.saveOk then
    { db := save_message db cid uid body reply, sent := [reply], response := XML_ACK
    , tempFileLeft := false, downloadedUrl := none, emailAttempt := none }
  else raiseResult db false none none

/-- The TRUE branch of the webhook, factored over the comma-split mediator
response: parse recipient and subject from fields 1 and 2 (raising when
fewer than three fields exist, as parts indexing does), download
media_urls head when media_urls is non-empty, compose and send, clean up the
temp file on the download-success path, then branch on email_sent == False:
that branch ends the chat and persists the confirmation, the other persists
the send-error reply.  The download-failure branch persists the
download-error reply and performs no cleanup. -/
def readyPathParts (env : Env) (db : DB) (uid cid : Nat) (body : String)
    (parts : List String) (media_urls : List String) : StepResult :=
  if parts.length < 3 then raiseResult db false none none
  else
    let recipient_email := pyStrip (parts.getD 1 "")
    let subject := pyStrip (parts.getD 2 "")
    match media_urls with
    | [] =>
      if env.saveOk then
        { db := save_message db cid uid body downloadErrorReply
        , sent := [downloadErrorReply], response := XML_ACK
        , tempFileLeft := false, downloadedUrl := none, emailAttempt := none }
      else raiseResult db false none none
    | url :: _ =>
      let dl := download_file env.fetchOk env.writeOk
      if dl.1 then
        let email_body := generate_email_body env.gen subject (some "/tmp/resume.pdf") (some recipient_email)
        let email_sent := env.sendEmailOk
        let attempt := some (recipient_email, subject, email_body)
        let tempLeft := !env.unlinkOk
        if email_sent = false then
          if env.endOk then
            let db1 := endChat db cid
            if env.saveOk then
              let msg := confirmationMessage recipient_email
              { db := save_message db1 cid uid body msg, sent := [msg], response := XML_ACK
              , tempFileLeft := tempLeft, downloadedUrl := some url, emailAttempt := attempt }
            else raiseResult db1 tempLeft (some url) attempt
          else raiseResult db tempLeft (some url) attempt
        else
          if env.saveOk then
            { db := save_message db cid uid body sendErrorReply, sent := [sendErrorReply]
            , response := XML_ACK, tempFileLeft := tempLeft, downloadedUrl := some url
            , emailAttempt := attempt }
          else raiseResult db tempLeft (some url) attempt
      else
        if env.saveOk then
          { db := save_message db cid uid body downloadErrorReply
          , sent := [downloadErrorReply], response := XML_ACK
          , tempFileLeft := dl.2, downloadedUrl := some url, emailAttempt := none }
        else raiseResult db dl.2 (some url) none

/-- The TRUE branch applied to the raw mediator response string. -/
def readyPath (env : Env) (db : DB) (uid cid : Nat) (body : String)
    (mediator_response : String) (media_urls : List String) : StepResult :=
  readyPathParts env db uid cid body (pySplitComma mediator_response) media_urls

/-- The no-active-chat branch: create a chat, generate the intro reply,
persist the turn and send the intro; when chat creation yields no id, reply
with the setup error without persisting; when a store call raises, the
exception handler replies. -/
def newChatPath (env : Env) (db : DB) (uid : Nat) (body : String) : StepResult :=
  match env.createRes with
  | .raises => raiseResult db false none none
  | .noId =>
    { db := db, sent := [setupErrorReply], response := XML_ACK
    , tempFileLeft := false, downloadedUrl := none, emailAttempt := none }
  | .ok =>
    let created := createChat db uid
    let intro := env.introMsg
    if env.saveOk then
      { db := save_message created.1 created.2 uid body intro, sent := [intro]
      , response := XML_ACK, tempFileLeft := false, downloadedUrl := none
      , emailAttempt := none }
    else raiseResult created.1 false none none

/-- The active-chat branch: load the history, run the mediator, then branch
on the response exactly as the source does (startswith TRUE, then the two
string equality checks, then the fallback). -/
def existingChatPath (env : Env) (db : DB) (user : UserRow) (cid : Nat)
    (body : String) (media_urls : List String) : StepResult :=
  if env.historyOk then
    let history := get_chat_messages db cid
    let med := analyze_conversation env.llm (reprUser user) history body media_urls
    if pyStartswith med "TRUE" then readyPath env db user.id cid body med media_urls
    else if med = "FALSE_1" then simpleReplyPath env db cid user.id body missingAttachmentReply
    else if med = "FALSE_2" then simpleReplyPath env db cid user.id body missingInfoReply
    else simpleReplyPath env db cid user.id body unknownReply
  else raiseResult db false none none

/-- Embeds whatsapp_webhook as one state transition: filter the media to
PDFs, branch on WaId, look the user up, reject non-members, then either
create a chat or classify the turn of the active chat; every exit returns
the fixed acknowledgment. -/
def whatsapp_webhook (env : Env) (db : DB) (inp : WebhookInput) : StepResult :=
  let media_urls := pdfUrls inp.media
  if inp.wa_id = "" then
    { db := db, sent := [noWaIdReply], response := XML_ACK
    , tempFileLeft := false, downloadedUrl := none, emailAttempt := none }
  else if env.userLookupOk then
    match findUserByPhone db (cleanNumber inp.from_number) with
    | [] => nonMemberResult db
    | user :: _ =>
      if user.is_member then
        if env.activeLookupOk then
          match findActiveChat db user.id with
          | none => newChatPath env db user.id inp.body
          | some chat => existingChatPath env db user chat.id inp.body media_urls
        else raiseResult db false none none
      else nonMemberResult db
  else raiseResult db false none none

/-! ## Invariant: active chats per user -/

/-- Number of active chats of the given user in the chats table. -/
def activeCount (db : DB) (uid : Nat) : Nat :=
  (db.chats.filter (isActiveFor uid)).length

/-- The at-most-one-active-chat-per-user invariant over the chats table. -/
def atMostOneActive (db : DB) : Prop :=
  ∀ uid, activeCount db uid ≤ 1

/-! ## Concrete fixtures and turn shape -/

/-- Collaborator environment in which every external call succeeds and the
model classifies the turn as missing information. -/
def envAllOk : Env :=
  { llm := fun _ => "FALSE_2", introMsg := "intro",
    userLookupOk := true, activeLookupOk := true, createRes := .ok,
    historyOk := true, saveOk := true, endOk := true,
    fetchOk := true, writeOk := true, unlinkOk := true, sendEmailOk := true,
    gen := ⟨⟨"success", none⟩, some [["chunk"]], "generated email body"⟩ }

/-- Inbound message of the seeded member John Doe with no attachment. -/
def memberInp : WebhookInput :=
  { from_number := "whatsapp:+12345678901", body := "Hi", wa_id := "12345678901",
    media := [] }

/-- State with the member John Doe owning one active chat. -/
def dbActive : DB :=
  { users := [⟨2, "John Doe", "+12345678901", "john@example.com", true, false⟩]
  , chats := [⟨1, 2, "active"⟩]
  , messages := []
  , nextChatId := 2 }

/-- Environment whose model reply authorizes the send pipeline. -/
def readyEnv : Env :=
  { envAllOk with
      llm := fun _ =>
        "TRUE, recruiter@acme.com, Application for Backend Engineer, http://api.twilio.com/media/9" }

/-- Inbound message of John Doe carrying one PDF attachment. -/
def pdfInp : WebhookInput :=
  { from_number := "whatsapp:+12345678901"
  , body := "recruiter@acme.com Application for Backend Engineer"
  , wa_id := "12345678901"
  , media := [("application/pdf", "http://api.twilio.com/media/0")] }

/-- Shape of one completed webhook turn relative to the starting state:
exactly one reply is sent, and either exactly one message row was appended,
or the messages table is unchanged and the reply is one of the four
no-persist replies (non-member, missing WaId, chat-creation failure,
store exception). -/
def turnOk (db : DB) (r : StepResult) : Prop :=
  r.sent.length = 1 ∧
    (r.db.messages.length = db.messages.length + 1 ∨
      (r.db.messages.length = db.messages.length ∧
        (r.sent = [nonMemberReply] ∨ r.sent = [noWaIdReply] ∨
          r.sent = [setupErrorReply] ∨ r.sent = [processingErrorReply])))

/-! ## Helper lemmas -/

theorem pyStartswith_false1 : pyStartswith "FALSE_1" "TRUE" = false := by decide

theorem activeCount_eq_of_chats_eq {db1 db2 : DB} (h : db1.chats = db2.chats) (u : Nat) :
    activeCount db1 u = activeCount db2 u := by
  unfold activeCount
  rw [h]

theorem activeCount_createChat (db : DB) (uid u : Nat) :
    activeCount (createChat db uid).1 u = activeCount db u + (if u = uid then 1 else 0) := by
  by_cases h : u = uid
  · subst h
    simp [activeCount, createChat, isActiveFor, List.filter_append]
  · have h2 : ¬ uid = u := fun hh => h hh.symm
    simp [activeCount, createChat, isActiveFor, List.filter_append, h, h2]

theorem endOne_filter_le (u cid : Nat) (l : List ChatRow) :
    ((l.map (fun c => if c.id == cid then { c with status := "ended" } else c)).filter
      (isActiveFor u)).length ≤ (l.filter (isActiveFor u)).length := by
  induction l with
  | nil => simp
  | cons c t ih =>
    simp only [List.map_cons, List.filter_cons]
    by_cases h : (c.id == cid) = true
    · rw [if_pos h]
      have hp : isActiveFor u { c with status := "ended" } = false := by
        simp [isActiveFor]
      rw [hp]
      simp only [Bool.false_eq_true, if_false]
      by_cases hc : isActiveFor u c = true
      · rw [if_pos hc]
        exact Nat.le_trans ih (Nat.le_succ _)
      · rw [if_neg hc]
        exact ih
    · rw [if_neg h]
      by_cases hc : isActiveFor u c = true
      · rw [if_pos hc, if_pos hc]
        simpa using ih
      · rw [if_neg hc, if_neg hc]
        exact ih

theorem activeCount_endChat_le (db : DB) (cid u : Nat) :
    activeCount (endChat db cid) u ≤ activeCount db u := by
  unfold activeCount endChat
  exact endOne_filter_le u cid db.chats

theorem activeCount_of_findActiveChat_none (db : DB) (uid : Nat)
    (h : findActiveChat db uid = none) : activeCount db uid = 0 := by
  unfold findActiveChat at h
  rw [List.getLast?_eq_none_iff] at h
  unfold activeCount
  rw [h]
  rfl

/-! ## C1: no Ready decision without current-turn media -/

/-- C1: for every oracle behaviour, user data, history and current message,
analyze_conversation with an empty media_urls list never returns a string
starting with TRUE: the post-filter forces FALSE_1 on any TRUE-shaped model
reply, and every other reply does not start with TRUE by the branch
condition. -/
theorem mediator_never_ready_on_empty_media (llm : String → String) (u : String)
    (h : List MessageTurn) (m : String) :
    pyStartswith (analyze_conversation llm u h m []) "TRUE" = false := by
  unfold analyze_conversation
  by_cases hs :
      pyStartswith (pyStrip (llm (mediatorPrompt u h m []))) "TRUE" = true
  · simp [hs, pyStartswith_false1]
  · simp [hs]

/-! ## C6: the classifier is deterministic and mutates no state -/

/-- C6: analyze_conversation consults the language model once, on the prompt
determined by its four inputs, and its reply is a pure function of that
single response: two oracles that agree on the prompt of the given inputs
yield identical decisions.  The embedding is a plain function because the
source body performs no store operation. -/
theorem analyze_conversation_deterministic (o1 o2 : String → String) (u : String)
    (h : List MessageTurn) (m : String) (urls : List String)
    (ho : o1 (mediatorPrompt u h m urls) = o2 (mediatorPrompt u h m urls)) :
    analyze_conversation o1 u h m urls = analyze_conversation o2 u h m urls := by
  unfold analyze_conversation
  rw [ho]

/-- Witness for C6: two syntactically different oracles agreeing on the
prompt produce the same decision at a concrete input. -/
theorem analyze_conversation_deterministic_witness :
    analyze_conversation (fun _ => "FALSE_2") "user" [] "hello" [] =
      analyze_conversation (fun _ => pyStrip (pyStrip " FALSE_2 ")) "user" [] "hello" [] :=
  analyze_conversation_deterministic _ _ "user" [] "hello" [] (by decide)

/-! ## C10: generate_email_body totality -/

/-- C10 counterexample: when PDF processing succeeds, the chunk query is
non-empty and the summary agent reply is the empty string, the source
returns that empty string, so the returned body is not non-empty. -/
theorem generate_email_body_empty_on_empty_summary :
    generate_email_body ⟨⟨"success", none⟩, some [["chunk"]], ""⟩
      "Application for Backend Engineer" (some "/tmp/resume.pdf")
      (some "recruiter@acme.com") = "" := by decide

set_option maxRecDepth 4096 in
/-- C10 amended: generate_email_body is total and always returns either the
summary agent reply or the fixed default template; the default template is
non-empty and is returned whenever the attachment path is absent, whenever
PDF processing fails (a status that is neither success nor
partial-success-with-text), and whenever processing succeeded but the chunk
query yields no non-empty first document list. -/
theorem generate_email_body_default_or_summary (genv : GenEnv) (subject : String)
    (ap : Option String) (re : Option String) :
    (generate_email_body genv subject ap re = genv.summaryContent ∨
      generate_email_body genv subject ap re = get_default_email_template subject) ∧
    0 < (get_default_email_template subject).length ∧
    generate_email_body genv subject none re = get_default_email_template subject ∧
    (genv.processResult.status ≠ "success" ∧ genv.processResult.status ≠ "partial_success" →
      generate_email_body genv subject ap re = get_default_email_template subject) ∧
    (genv.processResult.status = "partial_success" ∧
        (genv.processResult.text = none ∨ genv.processResult.text = some "") →
      generate_email_body genv subject ap re = get_default_email_template subject) ∧
    (genv.processResult.status = "success" →
      (genv.queryDocs = none ∨ genv.queryDocs = some [] ∨
        (∃ rest, genv.queryDocs = some ([] :: rest))) →
      generate_email_body genv subject ap re = get_default_email_template subject) := by
  refine ⟨?_, by unfold get_default_email_template ; decide, rfl, ?_, ?_, ?_⟩
  · unfold generate_email_body
    repeat first | (left ; rfl) | (right ; rfl) | split
  · rintro ⟨h1, h2⟩
    have hb : (genv.processResult.status == "partial_success") = false := by
      simp [h2]
    unfold generate_email_body
    cases ap with
    | none => rfl
    | some p =>
      by_cases hp : p = ""
      · simp [hp]
      · simp [hp, h1, hb]
  · rintro ⟨h1, h2⟩
    have hb : (genv.processResult.status == "partial_success") = true := by
      simp [h1]
    have hs : genv.processResult.status ≠ "success" := by
      rw [h1] ; decide
    unfold generate_email_body
    cases ap with
    | none => rfl
    | some p =>
      by_cases hp : p = ""
      · simp [hp]
      · rcases h2 with h2 | h2 <;> simp [hp, hs, hb, h2]
  · intro h1 h2
    unfold generate_email_body
    cases ap with
    | none => rfl
    | some p =>
      by_cases hp : p = ""
      · simp [hp]
      · rcases h2 with h2 | h2 | ⟨rest, h2⟩ <;> simp [hp, h1, h2]

/-- Witness for C10: at a concrete environment whose PDF processing reports
an error status, the fallback guarantee of the amended theorem applies and
the default template is returned. -/
theorem generate_email_body_default_or_summary_witness :
    generate_email_body ⟨⟨"error", none⟩, none, "summary text"⟩ "Subj"
        (some "/tmp/resume.pdf") none
      = get_default_email_template "Subj" :=
  (generate_email_body_default_or_summary ⟨⟨"error", none⟩, none, "summary text"⟩
      "Subj" (some "/tmp/resume.pdf") none).2.2.2.1 (by decide)

/-! ## C8: every call returns the fixed acknowledgment -/

theorem simpleReplyPath_response (env : Env) (db : DB) (cid uid : Nat)
    (body reply : String) : (simpleReplyPath env db cid uid body reply).response = XML_ACK := by
  unfold simpleReplyPath raiseResult
  split <;> rfl

theorem readyPathParts_response (env : Env) (db : DB) (uid cid : Nat) (body : String)
    (parts media_urls : List String) :
    (readyPathParts env db uid cid body parts media_urls).response = XML_ACK := by
  unfold readyPathParts raiseResult
  repeat first | rfl | split | dsimp only

theorem newChatPath_response (env : Env) (db : DB) (uid : Nat) (body : String) :
    (newChatPath env db uid body).response = XML_ACK := by
  unfold newChatPath raiseResult
  repeat first | rfl | split | dsimp only

theorem existingChatPath_response (env : Env) (db : DB) (user : UserRow) (cid : Nat)
    (body : String) (media_urls : List String) :
    (existingChatPath env db user cid body media_urls).response = XML_ACK := by
  unfold existingChatPath readyPath raiseResult
  repeat first
  | rfl
  | apply readyPathParts_response
  | apply simpleReplyPath_response
  | split
  | dsimp only

/-- C8: the webhook handler returns the fixed well-formed TwiML
acknowledgment on every path, for every combination of collaborator
outcomes, store failures included: no internal failure reaches the
transport layer. -/
theorem webhook_always_returns_ack (env : Env) (db : DB) (inp : WebhookInput) :
    (whatsapp_webhook env db inp).response = XML_ACK := by
  unfold whatsapp_webhook nonMemberResult raiseResult
  repeat first
  | rfl
  | apply newChatPath_response
  | apply existingChatPath_response
  | split
  | dsimp only

/-! ## C3: at most one active chat per user -/

theorem simpleReplyPath_chats (env : Env) (db : DB) (cid uid : Nat) (body reply : String) :
    (simpleReplyPath env db cid uid body reply).db.chats = db.chats := by
  unfold simpleReplyPath raiseResult save_message
  split <;> rfl

theorem readyPathParts_chats (env : Env) (db : DB) (uid cid : Nat) (body : String)
    (parts media_urls : List String) :
    (readyPathParts env db uid cid body parts media_urls).db.chats = db.chats ∨
    (readyPathParts env db uid cid body parts media_urls).db.chats = (endChat db cid).chats := by
  unfold readyPathParts raiseResult save_message
  repeat first | (left ; rfl) | (right ; rfl) | split | dsimp only

theorem newChatPath_chats (env : Env) (db : DB) (uid : Nat) (body : String) :
    (newChatPath env db uid body).db.chats = db.chats ∨
    (newChatPath env db uid body).db.chats = (createChat db uid).1.chats := by
  unfold newChatPath raiseResult save_message createChat
  repeat first | (left ; rfl) | (right ; rfl) | split | dsimp only

theorem existingChatPath_chats (env : Env) (db : DB) (user : UserRow) (cid : Nat)
    (body : String) (media_urls : List String) :
    (existingChatPath env db user cid body media_urls).db.chats = db.chats ∨
    (existingChatPath env db user cid body media_urls).db.chats = (endChat db cid).chats := by
  unfold existingChatPath readyPath raiseResult
  repeat first
  | apply readyPathParts_chats
  | (left ; apply simpleReplyPath_chats)
  | (left ; rfl)
  | split
  | dsimp only

/-- C3: one webhook transition preserves the at-most-one-active-chat-per-user
invariant: a chat row is inserted only on the branch where the active-chat
lookup returned nothing, every other branch leaves the chats table unchanged
or downgrades one chat to ended. -/
theorem webhook_preserves_at_most_one_active_chat (env : Env) (db : DB)
    (inp : WebhookInput) (h : atMostOneActive db) :
    atMostOneActive (whatsapp_webhook env db inp).db := by
  intro u
  unfold whatsapp_webhook nonMemberResult raiseResult
  split
  · exact h u
  · split
    · split
      · exact h u
      · split
        · split
          · split
            · rename_i xs user tail heqUser hmem hact xopt heqChat
              dsimp only
              rcases newChatPath_chats env db user.id inp.body with hc | hc
              · rw [activeCount_eq_of_chats_eq hc]
                exact h u
              · rw [activeCount_eq_of_chats_eq hc]
                rw [activeCount_createChat]
                by_cases hu : u = user.id
                · rw [if_pos hu, hu]
                  rw [activeCount_of_findActiveChat_none db user.id heqChat]
                · rw [if_neg hu]
                  simpa using h u
            · rename_i xs user tail heqUser hmem hact xopt chat heqChat
              dsimp only
              rcases existingChatPath_chats env db user chat.id inp.body (pdfUrls inp.media) with hc | hc
              · rw [activeCount_eq_of_chats_eq hc]
                exact h u
              · rw [activeCount_eq_of_chats_eq hc]
                exact Nat.le_trans (activeCount_endChat_le db chat.id u) (h u)
          · exact h u
        · exact h u
    · exact h u

/-- Witness for C3: the invariant holds on the seed state and is preserved
through a concrete member turn. -/
theorem webhook_preserves_at_most_one_active_chat_witness :
    atMostOneActive
      (whatsapp_webhook
        { llm := fun _ => "FALSE_2", introMsg := "intro",
          userLookupOk := true, activeLookupOk := true, createRes := .ok,
          historyOk := true, saveOk := true, endOk := true,
          fetchOk := true, writeOk := true, unlinkOk := true, sendEmailOk := true,
          gen := ⟨⟨"success", none⟩, some [["chunk"]], "body"⟩ }
        init_db
        { from_number := "whatsapp:+12345678901", body := "Hi", wa_id := "12345678901",
          media := [] }).db :=
  webhook_preserves_at_most_one_active_chat _ init_db _
    (fun uid => by simp [activeCount, init_db])

/-! ## C4: one reply and one persisted turn per inbound message -/

theorem simpleReplyPath_turnOk (env : Env) (db : DB) (cid uid : Nat) (body reply : String) :
    turnOk db (simpleReplyPath env db cid uid body reply) := by
  unfold turnOk simpleReplyPath raiseResult
  split <;> simp [save_message]

theorem readyPathParts_turnOk (env : Env) (db : DB) (uid cid : Nat) (body : String)
    (parts media_urls : List String) :
    turnOk db (readyPathParts env db uid cid body parts media_urls) := by
  unfold turnOk readyPathParts raiseResult
  repeat' (first | split | dsimp only)
  all_goals simp [save_message, endChat]

theorem newChatPath_turnOk (env : Env) (db : DB) (uid : Nat) (body : String) :
    turnOk db (newChatPath env db uid body) := by
  unfold turnOk newChatPath raiseResult createChat
  repeat' (first | split | dsimp only)
  all_goals simp [save_message]

theorem existingChatPath_turnOk (env : Env) (db : DB) (user : UserRow) (cid : Nat)
    (body : String) (media_urls : List String) :
    turnOk db (existingChatPath env db user cid body media_urls) := by
  unfold existingChatPath readyPath
  repeat' (first | split | dsimp only)
  all_goals first
    | apply readyPathParts_turnOk
    | apply simpleReplyPath_turnOk
    | (unfold turnOk raiseResult ; simp)

/-- C4 amended: every webhook call sends exactly one reply and appends at
most one message row; whenever no row is appended, the reply is the
non-member rejection, the missing-WaId reply, the chat-setup error or the
generic processing error — so besides the non-member/unknown-phone path,
the chat-creation-failure and store-exception paths also reply without
persisting. -/
theorem webhook_one_reply_per_turn (env : Env) (db : DB) (inp : WebhookInput) :
    turnOk db (whatsapp_webhook env db inp) := by
  unfold whatsapp_webhook nonMemberResult raiseResult
  repeat' (first | split | dsimp only)
  all_goals first
    | apply newChatPath_turnOk
    | apply existingChatPath_turnOk
    | (unfold turnOk ; simp)

/-- C4 counterexample: a member user with a WaId whose chat-creation query
returns no row id gets exactly one reply while no message row is persisted,
refuting that the non-member/unknown-phone path is the only
reply-without-persist path. -/
theorem member_reply_without_persist :
    (whatsapp_webhook { envAllOk with createRes := .noId } init_db memberInp).sent
        = [setupErrorReply] ∧
    (whatsapp_webhook { envAllOk with createRes := .noId } init_db memberInp).db.messages = [] ∧
    ((findUserByPhone init_db (cleanNumber memberInp.from_number)).head?.all
        (fun u => u.is_member)) = true ∧
    memberInp.wa_id ≠ "" := by decide

/-! ## C5: temporary file cleanup -/

theorem simpleReplyPath_tempFile (env : Env) (db : DB) (cid uid : Nat) (body reply : String) :
    (simpleReplyPath env db cid uid body reply).tempFileLeft = false := by
  unfold simpleReplyPath raiseResult
  split <;> rfl

theorem newChatPath_tempFile (env : Env) (db : DB) (uid : Nat) (body : String) :
    (newChatPath env db uid body).tempFileLeft = false := by
  unfold newChatPath raiseResult
  repeat first | rfl | split | dsimp only

theorem readyPathParts_tempFile (env : Env) (db : DB) (uid cid : Nat) (body : String)
    (parts media_urls : List String) (hw : env.writeOk = true) (hu : env.unlinkOk = true) :
    (readyPathParts env db uid cid body parts media_urls).tempFileLeft = false := by
  unfold readyPathParts raiseResult
  cases hf : env.fetchOk <;>
    simp only [download_file, hw, hf, Bool.not_false, Bool.not_true, if_true, if_false] <;>
    repeat' (first | split | dsimp only)
  all_goals simp_all [hu]

theorem existingChatPath_tempFile (env : Env) (db : DB) (user : UserRow) (cid : Nat)
    (body : String) (media_urls : List String) (hw : env.writeOk = true)
    (hu : env.unlinkOk = true) :
    (existingChatPath env db user cid body media_urls).tempFileLeft = false := by
  unfold existingChatPath readyPath raiseResult
  repeat first
  | rfl
  | exact readyPathParts_tempFile env db user.id cid body _ media_urls hw hu
  | apply simpleReplyPath_tempFile
  | split
  | dsimp only

/-- C5 amended: the temp file is guaranteed absent after the turn whenever
the local write and the unlink succeed: cleanup runs on the download-success
path regardless of the compose/send outcome, and a fully failed fetch
creates no file.  (The counterexample shows the guarantee does not extend to
a download that fails after partially writing the file.) -/
theorem temp_file_removed_when_write_and_unlink_ok (env : Env) (db : DB)
    (inp : WebhookInput) (hw : env.writeOk = true) (hu : env.unlinkOk = true) :
    (whatsapp_webhook env db inp).tempFileLeft = false := by
  unfold whatsapp_webhook nonMemberResult raiseResult
  repeat first
  | rfl
  | apply newChatPath_tempFile
  | (apply existingChatPath_tempFile <;> first | exact hw | exact hu)
  | split
  | dsimp only

/-- Witness for C5: in a concrete Ready turn in which download, write,
unlink and send all succeed, no temp file remains. -/
theorem temp_file_removed_when_write_and_unlink_ok_witness :
    (whatsapp_webhook readyEnv dbActive pdfInp).tempFileLeft = false :=
  temp_file_removed_when_write_and_unlink_ok readyEnv dbActive pdfInp rfl rfl

/-- C5 counterexample: when the fetch succeeds but the local write fails,
download_file reports failure after partially writing the file, the
download-error reply is persisted, and the temp file is left on disk: the
cleanup does not run on this exit path of the Ready pipeline. -/
theorem temp_file_left_on_partial_download :
    (whatsapp_webhook { readyEnv with writeOk := false } dbActive pdfInp).tempFileLeft = true ∧
    (whatsapp_webhook { readyEnv with writeOk := false } dbActive pdfInp).sent
      = [downloadErrorReply] := by decide

/-! ## C7: non-member turns leave the state unchanged -/

/-- C7: for every turn with a WaId whose user lookup succeeds and yields
either no row or a row with is_member false, the webhook sends exactly the
fixed rejection reply and the persisted state is unchanged: no chat row and
no message row is created. -/
theorem non_member_turn_leaves_state_unchanged (env : Env) (db : DB) (inp : WebhookInput)
    (hw : ¬ inp.wa_id = "") (hlu : env.userLookupOk = true)
    (hm : ((findUserByPhone db (cleanNumber inp.from_number)).head?.all
        (fun u => !u.is_member)) = true) :
    (whatsapp_webhook env db inp).db = db ∧
    (whatsapp_webhook env db inp).sent = [nonMemberReply] := by
  unfold whatsapp_webhook nonMemberResult
  dsimp only
  cases hfu : findUserByPhone db (cleanNumber inp.from_number) with
  | nil => simp [hw, hlu, hfu]
  | cons uu rest =>
    rw [hfu] at hm
    simp only [List.head?, Option.all, Bool.not_eq_true'] at hm
    simp [hw, hlu, hfu, hm]

/-- Witness for C7: the seeded non-member Jane Smith messages in, the state
is unchanged and the rejection reply is the only message sent. -/
theorem non_member_turn_leaves_state_unchanged_witness :
    (whatsapp_webhook envAllOk init_db
        { from_number := "whatsapp:+12345678902", body := "Hi",
          wa_id := "12345678902", media := [] }).db = init_db ∧
    (whatsapp_webhook envAllOk init_db
        { from_number := "whatsapp:+12345678902", body := "Hi",
          wa_id := "12345678902", media := [] }).sent = [nonMemberReply] :=
  non_member_turn_leaves_state_unchanged envAllOk init_db _
    (by decide) rfl (by decide)

/-! ## C2: outcome of the Ready pipeline send stage -/

/-- C2 failing-input exhibit: in a Ready turn where the download succeeds
and send_email returns True, the chat stays active and the send-error reply
is persisted and sent; in the same turn with send_email returning False,
the chat is marked ended and the success confirmation is persisted and
sent.  The branch at the email_sent == False test is inverted relative to
both the spec and the meaning of its own reply texts. -/
theorem ready_send_branch_inverted :
    ((whatsapp_webhook readyEnv dbActive pdfInp).db.chats = [⟨1, 2, "active"⟩] ∧
      (whatsapp_webhook readyEnv dbActive pdfInp).db.messages =
        [⟨1, 2, pdfInp.body, sendErrorReply⟩] ∧
      (whatsapp_webhook readyEnv dbActive pdfInp).sent = [sendErrorReply]) ∧
    ((whatsapp_webhook { readyEnv with sendEmailOk := false } dbActive pdfInp).db.chats
        = [⟨1, 2, "ended"⟩] ∧
      (whatsapp_webhook { readyEnv with sendEmailOk := false } dbActive pdfInp).sent
        = [confirmationMessage "recruiter@acme.com"]) := by decide

/-! ## C9: the pipeline downloads media_urls head and ignores the reported url -/

theorem take3_facts (p1 p2 : List String) (h : p1.take 3 = p2.take 3) :
    p1.getD 1 "" = p2.getD 1 "" ∧ p1.getD 2 "" = p2.getD 2 "" ∧
      ((p1.length < 3) = (p2.length < 3)) := by
  have hlen : min 3 p1.length = min 3 p2.length := by
    simpa [List.length_take] using congrArg List.length h
  have g1 : p1[1]? = p2[1]? := by
    rw [← @List.getElem?_take_of_lt String p1 3 1 (by omega),
      ← @List.getElem?_take_of_lt String p2 3 1 (by omega), h]
  have g2 : p1[2]? = p2[2]? := by
    rw [← @List.getElem?_take_of_lt String p1 3 2 (by omega),
      ← @List.getElem?_take_of_lt String p2 3 2 (by omega), h]
  refine ⟨?_, ?_, ?_⟩
  · simp [List.getD_eq_getElem?_getD, g1]
  · simp [List.getD_eq_getElem?_getD, g2]
  · exact propext (by omega)

theorem readyPathParts_congr (env : Env) (db : DB) (uid cid : Nat) (body : String)
    (p1 p2 urls : List String) (h : p1.take 3 = p2.take 3) :
    readyPathParts env db uid cid body p1 urls =
      readyPathParts env db uid cid body p2 urls := by
  obtain ⟨h1, h2, hlen⟩ := take3_facts p1 p2 h
  unfold readyPathParts
  by_cases hl : p1.length < 3
  · have hl2 : p2.length < 3 := hlen ▸ hl
    rw [if_pos hl, if_pos hl2]
  · have hl2 : ¬ p2.length < 3 := hlen ▸ hl
    rw [if_neg hl, if_neg hl2, h1, h2]

theorem existingChatPath_llm_congr (env : Env) (r1 r2 : String) (db : DB)
    (user : UserRow) (cid : Nat) (body : String) (urls : List String)
    (h1 : pyStartswith (pyStrip r1) "TRUE" = true)
    (h2 : pyStartswith (pyStrip r2) "TRUE" = true)
    (h3 : (pySplitComma (pyStrip r1)).take 3 = (pySplitComma (pyStrip r2)).take 3) :
    existingChatPath { env with llm := fun _ => r1 } db user cid body urls =
      existingChatPath { env with llm := fun _ => r2 } db user cid body urls := by
  unfold existingChatPath readyPath analyze_conversation
  dsimp only
  cases hh : env.historyOk
  · simp only [hh, Bool.false_eq_true, if_false]
  · simp only [hh, eq_self_iff_true, if_true]
    cases he : urls.isEmpty
    · simp only [Bool.and_false, Bool.false_eq_true, if_false, h1, h2,
        eq_self_iff_true, if_true]
      exact Eq.trans (by rfl)
        (Eq.trans (readyPathParts_congr env db user.id cid body _ _ urls h3) (by rfl))
    · simp only [Bool.and_true, h1, h2, eq_self_iff_true, if_true,
        pyStartswith_false1, Bool.false_eq_true, if_false]
      rfl

/-- C9: first, the webhook outcome is unchanged when only the fourth
comma-field of a Ready-shaped mediator reply changes, because the url the
mediator reports is parsed but never used; second, the Ready pipeline
downloads exactly the head of the current turn's media_urls list, so any
further PDF attachments of the turn are ignored. -/
theorem ready_pipeline_uses_first_media_url (env : Env) (db : DB) (inp : WebhookInput)
    (r1 r2 : String) (uid cid : Nat) (body med : String) (urls : List String)
    (h1 : pyStartswith (pyStrip r1) "TRUE" = true)
    (h2 : pyStartswith (pyStrip r2) "TRUE" = true)
    (h3 : (pySplitComma (pyStrip r1)).take 3 = (pySplitComma (pyStrip r2)).take 3)
    (hmed : 3 ≤ (pySplitComma med).length) :
    whatsapp_webhook { env with llm := fun _ => r1 } db inp =
      whatsapp_webhook { env with llm := fun _ => r2 } db inp ∧
    (readyPath env db uid cid body med urls).downloadedUrl = urls.head? := by
  constructor
  · unfold whatsapp_webhook
    dsimp only
    repeat' (first | split | dsimp only)
    all_goals first
      | rfl
      | exact existingChatPath_llm_congr env r1 r2 db _ _ inp.body _ h1 h2 h3
  · unfold readyPath readyPathParts
    rw [if_neg (by omega)]
    cases urls with
    | nil =>
      dsimp only
      split <;> rfl
    | cons u rest =>
      dsimp only
      repeat' (first | split | dsimp only)
      all_goals rfl

/-- Witness for C9: two Ready replies differing only in the reported url
yield identical outcomes on a concrete turn, and the concrete pipeline
downloads the first media url. -/
theorem ready_pipeline_uses_first_media_url_witness :
    (whatsapp_webhook
        { envAllOk with llm := fun _ => "TRUE, recruiter@acme.com, Subj, u1" }
        dbActive pdfInp =
      whatsapp_webhook
        { envAllOk with llm := fun _ => "TRUE, recruiter@acme.com, Subj, u2" }
        dbActive pdfInp) ∧
    (readyPath envAllOk dbActive 2 1 "body"
        "TRUE, recruiter@acme.com, Subj, u1" ["first", "second"]).downloadedUrl
      = ["first", "second"].head? :=
  ready_pipeline_uses_first_media_url envAllOk dbActive pdfInp _ _ 2 1 "body" _ _
    (by decide) (by decide) (by decide) (by decide)
